import Mathlib

/-!
Verification development for the web-layer wiring of the auction marketplace
(`src/auctions/web_app/main.py`): the request-scoped connection/transaction
manager (`ThreadlocalConnectionProvider`), the lifecycle hooks
(`transaction_start` / `transaction_commit`), and the dependency registry
used by `setup_dependency_injection` / `di_config`.

Modelling conventions:
  - An execution context (a thread) is identified by a natural number `Ctx`.
    `threading.local()` storage is a total map `Ctx → Storage`, where a fresh
    context has no attributes set (`⟨none, none⟩`). The `connection` and
    `session` attributes of the thread-local storage are modelled as two
    independent `Option` fields, since Python attributes can exist
    independently of one another.
  - Physical connections handed out by the engine are identified by natural
    numbers; `engine.connect()` returns a fresh identifier drawn from a
    counter (`nextConn`), so distinct `connect` calls yield distinct
    connections.
  - `Session(bind=connection)` is modelled by `DBSession`, a record carrying
    the connection it is bound to.
  - Python exceptions are the constructors of `PyError`. The `assert` in
    `open` raises `AssertionError`; the spec names this failure
    `AlreadyAcquired`, and we use that name for the constructor. The
    `Exception("No connection available")` raised by `__call__` and
    `provide_session` is `noActiveConnection`.
  - Methods that can raise return `Except PyError _`; the mutating
    `close_if_present` returns `Option PyError × ProviderState` so that the
    post-state is visible even when an exception propagates out of it.
  - Failures of the external driver's `connection.close()` are a parameter
    `closeErr : Conn → Option PyError` (the driver may succeed, raise
    `AttributeError`, or raise any other exception).
-/

/-- Identifier of an execution context (a thread id): the key under which
`threading.local` isolates state. -/
abbrev Ctx := Nat

/-- Identifier of a physical connection checked out from the engine. -/
abbrev Conn := Nat

/-- Python exceptions that appear in the modelled fragment. -/
inductive PyError where
  /-- `AttributeError`: access or `del` of a missing thread-local attribute,
  or raised by the driver's `close()`. -/
  | attributeError
  /-- `AssertionError` from `assert not hasattr(self._storage, "connection")`
  in `open`; the spec calls this failure `AlreadyAcquired`. -/
  | alreadyAcquired
  /-- `Exception("No connection available")` raised by `__call__` and
  `provide_session`. -/
  | noActiveConnection
  /-- Resolution of a capability with no registry entry. -/
  | unboundCapability
  /-- An operational failure raised by `tx.commit()`. -/
  | commitFailed
  /-- An operational failure raised by the driver's `connection.close()`. -/
  | closeFailed
deriving DecidableEq, Repr

/-- `Session(bind=connection)`: a unit-of-work handle bound to a physical
connection. -/
structure DBSession where
  bind : Conn
deriving DecidableEq, Repr

/-- The attributes a single context may have set on the `threading.local()`
storage: `self._storage.connection` and `self._storage.session`.  `none`
means the attribute is absent (reading it raises `AttributeError`). -/
structure Storage where
  connection : Option Conn
  session : Option DBSession
deriving DecidableEq, Repr

/-- A fresh context has no thread-local attributes. -/
def Storage.empty : Storage := ⟨none, none⟩

/-- State of a `ThreadlocalConnectionProvider` together with its engine:
the engine's fresh-connection counter and the per-context storage. -/
structure ProviderState where
  nextConn : Nat
  storage : Ctx → Storage

namespace ThreadlocalConnectionProvider

/-- `__call__`:
```
try:
    return self._storage.connection
except AttributeError:
    raise Exception("No connection available")
```
A pure read: it never creates or modifies a binding. -/
def call (s : ProviderState) (ctx : Ctx) : Except PyError Conn :=
  match (s.storage ctx).connection with
  | some c => .ok c
  | none => .error .noActiveConnection

/-- `provide_session`:
```
if not self.connected:
    raise Exception("No connection available")
return self._storage.session
```
If the `connection` attribute is present but `session` is absent (a state
the class never reaches, see the stored-pair invariant), the final read
raises `AttributeError`.  A pure read: it never creates or modifies a
binding. -/
def provide_session (s : ProviderState) (ctx : Ctx) : Except PyError DBSession :=
  if (s.storage ctx).connection.isSome then
    match (s.storage ctx).session with
    | some sess => .ok sess
    | none => .error .attributeError
  else
    .error .noActiveConnection

/-- `connected` property: `hasattr(self._storage, "connection")`. -/
def connected (s : ProviderState) (ctx : Ctx) : Bool :=
  (s.storage ctx).connection.isSome

/-- `open`:
```
assert not hasattr(self._storage, "connection")
connection = self._engine.connect()
self._storage.connection = connection
self._storage.session = Session(bind=connection)
return connection
```
(`open` is a Lean keyword, hence the trailing underscore.) -/
def open_ (s : ProviderState) (ctx : Ctx) : Except PyError (Conn × ProviderState) :=
  if (s.storage ctx).connection.isSome then
    .error .alreadyAcquired
  else
    let c := s.nextConn
    .ok (c,
      { nextConn := s.nextConn + 1,
        storage := fun t => if t = ctx then ⟨some c, some ⟨c⟩⟩ else s.storage t })

/-- `close_if_present`:
```
try:
    self._storage.connection.close()
    del self._storage.connection
    del self._storage.session
except AttributeError:
    pass
```
`closeErr` gives the outcome of the driver's `connection.close()`.  If the
`connection` attribute is absent, the very first read raises
`AttributeError`, which is caught.  If `close()` raises `AttributeError`,
it is likewise caught and the `del`s never run, so the binding is kept.  If
`close()` raises any other exception, it propagates and the binding is
kept.  On the success path both attributes are deleted (a `del` of an
absent `session` raises `AttributeError`, which the handler also
swallows, so the post-state is `⟨none, none⟩` in every success case). -/
def close_if_present (closeErr : Conn → Option PyError) (s : ProviderState)
    (ctx : Ctx) : Option PyError × ProviderState :=
  match (s.storage ctx).connection with
  | none => (none, s)
  | some c =>
    match closeErr c with
    | some .attributeError => (none, s)
    | some e => (some e, s)
    | none =>
      (none,
        { s with storage := fun t => if t = ctx then Storage.empty else s.storage t })

end ThreadlocalConnectionProvider

/-- Steps the `transaction_commit` hook is observed to perform on the
transaction and the connection. -/
inductive HookAction where
  | txCommit
  | txRollback
  | connRelease
deriving DecidableEq, Repr

/-- `transaction_commit` (the `after_request` hook):
```
try:
    if hasattr(request, "tx") and response.status_code < 400:
        request.tx.commit()
finally:
    connection_provider.close_if_present()
return response
```
`hasTx` is `hasattr(request, "tx")`, `statusCode` is
`response.status_code`, `commitErr` is the outcome of `request.tx.commit()`
(only consulted when the commit is attempted), and `closeErr` is the
outcome of the driver's `close()` inside `close_if_present`.  Returns the
trace of performed actions, the exception that propagates out of the hook
(if any), and the resulting provider state.  Per Python `try/finally`
semantics the `finally` block always runs, and an exception raised inside
`finally` replaces the in-flight exception of the `try` block. -/
def transaction_commit (hasTx : Bool) (statusCode : Nat) (commitErr : Option PyError)
    (closeErr : Conn → Option PyError) (s : ProviderState) (ctx : Ctx) :
    List HookAction × Option PyError × ProviderState :=
  let commitAttempted := hasTx && decide (statusCode < 400)
  let tryErr := if commitAttempted then commitErr else none
  let tryActs := if commitAttempted then [HookAction.txCommit] else []
  let closed := ThreadlocalConnectionProvider.close_if_present closeErr s ctx
  match closed.1 with
  | some e => (tryActs ++ [HookAction.connRelease], some e, closed.2)
  | none => (tryActs ++ [HookAction.connRelease], tryErr, closed.2)

/-- `transaction_start` (the `before_request` hook):
`request.tx = connection_provider.open().begin()`.  On success the request
context holds a transaction handle on the freshly opened connection; on
failure the exception propagates before any domain code runs. -/
def transaction_start (s : ProviderState) (ctx : Ctx) :
    Except PyError (Conn × ProviderState) :=
  ThreadlocalConnectionProvider.open_ s ctx

/-- The stored-pair invariant of a context's thread-local storage: the
`session` attribute is present exactly when the `connection` attribute is,
and when both are present the session is the unit-of-work bound to the
stored connection. -/
def storageInv (st : Storage) : Prop :=
  match st.connection with
  | none => st.session = none
  | some c => st.session = some ⟨c⟩

instance (st : Storage) : Decidable (storageInv st) := by
  unfold storageInv
  cases st.connection <;> infer_instance

/-- Values distributed through the dependency registry by `di_config`.
Bindings whose implementations live outside this fragment (repositories,
query handlers, the event bus, the payment provider) are opaque tokens;
the two request-scoped bindings carry the connection respectively the
unit-of-work they hand out. -/
inductive DIValue where
  | conn (c : Conn)
  | sess (sn : DBSession)
  | auctionsRepo
  | getActiveAuctions
  | getSingleAuction
  | eventBus
  | paymentProvider (login password : String)
deriving DecidableEq, Repr

/-- The abstract capability identifiers registered by `di_config` (in the
source they are the port classes used as `inject` binder keys). -/
inductive Capability where
  | Connection
  | Session
  | AuctionsRepository
  | GetActiveAuctions
  | GetSingleAuction
  | EventBus
  | PaymentProvider
deriving DecidableEq, Repr

/-- Modelled from the spec: a Dependency Registry entry (§3, §4.3).  The
registry implementation is the external `inject` library, which is not
part of this repository's sources; only its configuration (`di_config`)
is.  `kind ∈ {singleton, provider}`: a `singleton` entry stores the value
directly (`binder.bind`); a `provider` entry stores a function evaluated
at each resolution (`binder.bind_to_provider`).  Since the provider
functions of `di_config` are closures over the
`ThreadlocalConnectionProvider`'s mutable thread-local state, a stored
provider function here takes the provider state and the current context
explicitly. -/
inductive RegistryEntry where
  | singleton (v : DIValue)
  | provider (f : ProviderState → Ctx → Except PyError DIValue)

/-- Modelled from the spec: the Dependency Registry (§4.3), a process-wide
table mapping capability identifiers to entries, with unique identifiers. -/
structure Registry where
  entries : List (Capability × RegistryEntry)

namespace Registry

/-- Modelled from the spec: `register(capabilityId, kind, value)` inserts
or overwrites the entry for `capabilityId` — no uniqueness failure, last
writer wins. -/
def register (r : Registry) (cid : Capability) (e : RegistryEntry) : Registry :=
  { entries := (cid, e) :: r.entries.filter (fun p => p.1 ≠ cid) }

/-- The entry stored for `cid`, if any. -/
def lookup (r : Registry) (cid : Capability) : Option RegistryEntry :=
  (r.entries.find? (fun p => p.1 = cid)).map Prod.snd

/-- Evaluating a resolved entry: a `singleton` yields the stored value; a
`provider` entry invokes the stored function (with no arguments in the
source — here the mutable state it closes over is passed explicitly). -/
def runEntry (e : RegistryEntry) (s : ProviderState) (ctx : Ctx) :
    Except PyError DIValue :=
  match e with
  | .singleton v => .ok v
  | .provider f => f s ctx

/-- Modelled from the spec: `resolve(capabilityId)` fails with
`UnboundCapability` if no entry exists; otherwise evaluates the entry. -/
def resolve (r : Registry) (cid : Capability) (s : ProviderState) (ctx : Ctx) :
    Except PyError DIValue :=
  match r.lookup cid with
  | none => .error .unboundCapability
  | some e => runEntry e s ctx

end Registry

/-- `di_config`: the registrations performed at startup, in source order.
```
binder.bind_to_provider(Connection, connection_provider)
binder.bind_to_provider(Session, connection_provider.provide_session)
binder.bind_to_provider(AuctionsRepository, SqlAlchemyAuctionsRepo)
binder.bind_to_provider(GetActiveAuctions, SqlGetActiveAuctions)
binder.bind_to_provider(GetSingleAuction, SqlGetSingleAuction)
binder.bind(EventBus, event_bus)
binder.bind(PaymentProvider, CaPaymentsPaymentProvider(login, password))
```
The first two providers are closures over the connection provider's
`__call__` / `provide_session`; the repository and query providers call
out-of-scope constructors, modelled as opaque tokens. -/
def di_config (login password : String) (r : Registry) : Registry :=
  ((((((r.register .Connection
      (.provider fun s ctx => (ThreadlocalConnectionProvider.call s ctx).map .conn)).register
    .Session
      (.provider fun s ctx => (ThreadlocalConnectionProvider.provide_session s ctx).map .sess)).register
    .AuctionsRepository (.provider fun _ _ => .ok .auctionsRepo)).register
    .GetActiveAuctions (.provider fun _ _ => .ok .getActiveAuctions)).register
    .GetSingleAuction (.provider fun _ _ => .ok .getSingleAuction)).register
    .EventBus (.singleton .eventBus)).register
    .PaymentProvider (.singleton (.paymentProvider login password))

/-- Two sequential units of work on the same context, each resolving the
`Connection` capability mid-flight: acquire, resolve, release; then again
acquire, resolve, release (driver `close()` succeeding).  Returns the two
resolved values and the final provider state. -/
def two_uow_resolves (r : Registry) (s : ProviderState) (ctx : Ctx) :
    Except PyError (DIValue × DIValue × ProviderState) :=
  match ThreadlocalConnectionProvider.open_ s ctx with
  | .error e => .error e
  | .ok (_, s1) =>
    match r.resolve .Connection s1 ctx with
    | .error e => .error e
    | .ok v1 =>
      let s2 := (ThreadlocalConnectionProvider.close_if_present (fun _ => none) s1 ctx).2
      match ThreadlocalConnectionProvider.open_ s2 ctx with
      | .error e => .error e
      | .ok (_, s3) =>
        match r.resolve .Connection s3 ctx with
        | .error e => .error e
        | .ok v2 =>
          let s4 := (ThreadlocalConnectionProvider.close_if_present (fun _ => none) s3 ctx).2
          .ok (v1, v2, s4)

/-- The provider state right after construction: engine counter at 0, no
context has any thread-local attribute set. -/
def emptyState : ProviderState := ⟨0, fun _ => Storage.empty⟩

/-- A state in which context 0 holds the binding produced by a successful
`open` on `emptyState` (connection 0 with its session). -/
def boundState : ProviderState :=
  ⟨1, fun t => if t = 0 then ⟨some 0, some ⟨0⟩⟩ else Storage.empty⟩

open ThreadlocalConnectionProvider

/-- C5: `close_if_present` with no binding for the current context is a
no-op and raises nothing; with a binding present and the driver `close()`
succeeding it removes the binding (clearing both attributes); and a second
consecutive call is always equivalent to a single one (idempotence, for
every driver `close()` behaviour). -/
theorem close_if_present_idempotent (closeErr : Conn → Option PyError)
    (s : ProviderState) (ctx : Ctx) :
    ((s.storage ctx).connection = none →
      close_if_present closeErr s ctx = (none, s))
    ∧ (∀ c, (s.storage ctx).connection = some c → closeErr c = none →
        close_if_present closeErr s ctx =
          (none, { s with
            storage := fun t => if t = ctx then Storage.empty else s.storage t }))
    ∧ close_if_present closeErr (close_if_present closeErr s ctx).2 ctx =
        close_if_present closeErr s ctx := by
  refine ⟨fun h => by simp [close_if_present, h], fun c hc hce => by simp [close_if_present, hc, hce], ?_⟩
  cases hc : (s.storage ctx).connection with
  | none => simp [close_if_present, hc]
  | some c =>
    cases hce : closeErr c with
    | none => simp [close_if_present, hc, hce, Storage.empty]
    | some e => cases e <;> simp [close_if_present, hc, hce]

/-- Witness for C5: releasing on the freshly constructed state (no binding
anywhere) is a no-op that raises nothing. -/
theorem close_if_present_idempotent_witness :
    close_if_present (fun _ => none) emptyState 0 = (none, emptyState) :=
  (close_if_present_idempotent (fun _ => none) emptyState 0).1 rfl

/-- C10: if a binding is present and the driver's `close()` raises anything
other than `AttributeError`, the exception propagates out of
`close_if_present` and the binding is not removed: the state is unchanged,
with connection and session still stored for the current context. -/
theorem close_failure_propagates_binding_kept (closeErr : Conn → Option PyError)
    (s : ProviderState) (ctx : Ctx) (c : Conn) (e : PyError)
    (hc : (s.storage ctx).connection = some c) (hce : closeErr c = some e)
    (hne : e ≠ PyError.attributeError) :
    close_if_present closeErr s ctx = (some e, s) := by
  cases e
  case attributeError => exact absurd rfl hne
  all_goals simp [close_if_present, hc, hce]

/-- Witness for C10: on the bound state, a `close()` that raises an
operational error leaves the binding in place and re-raises. -/
theorem close_failure_propagates_binding_kept_witness :
    close_if_present (fun _ => some .closeFailed) boundState 0 =
      (some .closeFailed, boundState) :=
  close_failure_propagates_binding_kept (fun _ => some .closeFailed) boundState 0 0
    .closeFailed rfl rfl (by decide)

/-- C3: `__call__` and `provide_session` fail with the
no-active-connection error exactly when no binding exists for the current
context, and otherwise return the bound connection respectively the bound
unit-of-work (under the stored-pair invariant).  Both are pure reads of
the provider state: neither produces a new state, so neither can
implicitly create a binding. -/
theorem call_provide_session_fail_iff_unbound (s : ProviderState) (ctx : Ctx) :
    ((s.storage ctx).connection = none →
      call s ctx = .error .noActiveConnection ∧
      provide_session s ctx = .error .noActiveConnection)
    ∧ (∀ c, (s.storage ctx).connection = some c →
        call s ctx = .ok c ∧
        (storageInv (s.storage ctx) → provide_session s ctx = .ok ⟨c⟩)) := by
  constructor
  · intro h
    exact ⟨by simp [call, h], by simp [provide_session, h]⟩
  · intro c hc
    refine ⟨by simp [call, hc], fun hinv => ?_⟩
    unfold storageInv at hinv
    rw [hc] at hinv
    simp [provide_session, hc, hinv]

/-- Witness for C3: on the freshly constructed state both lookups raise
the no-active-connection error. -/
theorem call_provide_session_fail_iff_unbound_witness :
    call emptyState 0 = .error .noActiveConnection ∧
    provide_session emptyState 0 = .error .noActiveConnection :=
  (call_provide_session_fail_iff_unbound emptyState 0).1 rfl

/-- C2: `open` fails (the spec's `AlreadyAcquired`) whenever a binding
already exists for the current context; and `open` performed right after
`close_if_present` (driver `close()` succeeding) always succeeds — it
draws a new physical connection from the engine, stores it together with
a fresh unit-of-work bound to it under the current context, and returns
that connection. -/
theorem open_after_release_succeeds (s : ProviderState) (ctx : Ctx) :
    ((s.storage ctx).connection.isSome → open_ s ctx = .error .alreadyAcquired)
    ∧ (∀ s₁, (close_if_present (fun _ => none) s ctx).2 = s₁ →
        open_ s₁ ctx = .ok (s₁.nextConn,
          { nextConn := s₁.nextConn + 1,
            storage := fun t =>
              if t = ctx then ⟨some s₁.nextConn, some ⟨s₁.nextConn⟩⟩
              else s₁.storage t })) := by
  constructor
  · intro h
    simp [open_, h]
  · intro s₁ hs₁
    subst hs₁
    cases hc : (s.storage ctx).connection with
    | none => simp [close_if_present, open_, hc]
    | some c => simp [close_if_present, open_, hc, Storage.empty]

/-- Witness for C2: a second `open` on the bound state fails with the
already-acquired error. -/
theorem open_after_release_succeeds_witness :
    open_ boundState 0 = .error .alreadyAcquired :=
  (open_after_release_succeeds boundState 0).1 (by decide)

/-- C9: every operation of the provider keeps the stored-pair invariant at
every context: `open` stores a connection together with the session bound
to it, `close_if_present` either removes both attributes or leaves the
storage untouched (for every driver `close()` behaviour), and the pure
reads `__call__`, `provide_session` and `connected` produce no new state.
Under the invariant the reads are moreover consistent: when `connected`
holds they return the stored connection and the session bound to it, and
when it does not they both raise the no-active-connection error. -/
theorem storage_pair_invariant_preserved (s : ProviderState) (ctx : Ctx)
    (hinv : ∀ t, storageInv (s.storage t)) :
    (∀ c s', open_ s ctx = .ok (c, s') → ∀ t, storageInv (s'.storage t))
    ∧ (∀ closeErr t, storageInv (((close_if_present closeErr s ctx).2).storage t))
    ∧ (connected s ctx = true →
        ∃ c, call s ctx = .ok c ∧ provide_session s ctx = .ok ⟨c⟩ ∧
          (s.storage ctx).connection = some c)
    ∧ (connected s ctx = false →
        call s ctx = .error .noActiveConnection ∧
        provide_session s ctx = .error .noActiveConnection) := by
  refine ⟨?_, ?_, ?_, ?_⟩
  · intro c s' h t
    cases hc : (s.storage ctx).connection with
    | some c₀ => simp [open_, hc] at h
    | none =>
      simp [open_, hc] at h
      rw [← h.2]
      by_cases ht : t = ctx
      · subst ht; simp [storageInv]
      · simpa [ht] using hinv t
  · intro closeErr t
    cases hc : (s.storage ctx).connection with
    | none => simpa [close_if_present, hc] using hinv t
    | some c =>
      cases hce : closeErr c with
      | none =>
        by_cases ht : t = ctx
        · subst ht; simp [close_if_present, hc, hce, storageInv, Storage.empty]
        · simpa [close_if_present, hc, hce, ht] using hinv t
      | some e =>
        cases e <;> simpa [close_if_present, hc, hce] using hinv t
  · intro h
    cases hc : (s.storage ctx).connection with
    | none => simp [connected, hc] at h
    | some c =>
      have hs := hinv ctx
      unfold storageInv at hs
      rw [hc] at hs
      exact ⟨c, by simp [call, hc], by simp [provide_session, hc, hs], rfl⟩
  · intro h
    cases hc : (s.storage ctx).connection with
    | some c => simp [connected, hc] at h
    | none => exact ⟨by simp [call, hc], by simp [provide_session, hc]⟩

/-- Witness for C9: releasing on the bound state (whose storage satisfies
the invariant everywhere) leaves the invariant holding at context 0. -/
theorem storage_pair_invariant_preserved_witness :
    storageInv (((close_if_present (fun _ => none) boundState 0).2).storage 0) :=
  (storage_pair_invariant_preserved boundState 0 (fun t => by
    by_cases ht : t = 0 <;> simp [boundState, ht, storageInv, Storage.empty])).2.1
    (fun _ => none) 0

/-- Unfolding equation for the hook: the trace is the optional commit step
followed by the unconditional release, the propagating exception is the
`finally` block's if it raised and the `try` block's otherwise, and the
resulting state is the one produced by `close_if_present`. -/
theorem transaction_commit_eq (hasTx : Bool) (statusCode : Nat)
    (commitErr : Option PyError) (closeErr : Conn → Option PyError)
    (s : ProviderState) (ctx : Ctx) :
    transaction_commit hasTx statusCode commitErr closeErr s ctx =
      ((if hasTx && decide (statusCode < 400) then [HookAction.txCommit] else []) ++
          [HookAction.connRelease],
        (match (close_if_present closeErr s ctx).1 with
         | some e => some e
         | none => if hasTx && decide (statusCode < 400) then commitErr else none),
        (close_if_present closeErr s ctx).2) := by
  simp only [transaction_commit]
  cases hcl : (close_if_present closeErr s ctx).1 <;> simp [hcl]

/-- C1: the `finally` block of `transaction_commit` runs `close_if_present`
on every exit path — whatever the transaction-handle flag, the status
code, the commit outcome and the driver `close()` outcome, the release
action appears in the hook's trace.  When the driver `close()` succeeds,
the resulting state holds no binding for the current context, and the
exception propagating out of the hook is exactly the commit error (when
the commit was attempted and raised), so a commit failure propagates only
after the release has been performed. -/
theorem transaction_commit_always_releases (hasTx : Bool) (statusCode : Nat)
    (commitErr : Option PyError) (closeErr : Conn → Option PyError)
    (s : ProviderState) (ctx : Ctx) :
    HookAction.connRelease ∈
      (transaction_commit hasTx statusCode commitErr closeErr s ctx).1
    ∧ (((transaction_commit hasTx statusCode commitErr (fun _ => none) s ctx).2.2).storage
        ctx).connection = none
    ∧ (transaction_commit hasTx statusCode commitErr (fun _ => none) s ctx).2.1 =
        (if hasTx && decide (statusCode < 400) then commitErr else none) := by
  refine ⟨?_, ?_, ?_⟩
  · rw [transaction_commit_eq]; simp
  · rw [transaction_commit_eq]
    cases hc : (s.storage ctx).connection with
    | none => simp [close_if_present, hc]
    | some c => simp [close_if_present, hc, Storage.empty]
  · rw [transaction_commit_eq]
    cases hc : (s.storage ctx).connection with
    | none => simp [close_if_present, hc]
    | some c => simp [close_if_present, hc]

/-- C4: the hook attempts a commit exactly when a transaction handle is
present on the request context and the status code is below 400; it never
performs a rollback; and on a failure outcome (status at or above 400) the
trace consists of the release alone. -/
theorem transaction_commit_commit_iff_success (hasTx : Bool) (statusCode : Nat)
    (commitErr : Option PyError) (closeErr : Conn → Option PyError)
    (s : ProviderState) (ctx : Ctx) :
    (HookAction.txCommit ∈
        (transaction_commit hasTx statusCode commitErr closeErr s ctx).1
      ↔ (hasTx = true ∧ statusCode < 400))
    ∧ HookAction.txRollback ∉
        (transaction_commit hasTx statusCode commitErr closeErr s ctx).1
    ∧ (400 ≤ statusCode →
        (transaction_commit hasTx statusCode commitErr closeErr s ctx).1 =
          [HookAction.connRelease]) := by
  rw [transaction_commit_eq]
  by_cases ha : hasTx
  · by_cases hlt : statusCode < 400
    · simp [ha, hlt]
    · simp [ha, hlt]
  · simp [ha]

/-- Witness for C4: on a failure status the hook's trace is the release
alone (no commit, no rollback). -/
theorem transaction_commit_commit_iff_success_witness :
    (transaction_commit true 500 none (fun _ => none) boundState 0).1 =
      [HookAction.connRelease] :=
  (transaction_commit_commit_iff_success true 500 none (fun _ => none)
    boundState 0).2.2 (by decide)

/-- C8: distinct execution contexts are isolated.  `open` and
`close_if_present` performed in context B leave context A's thread-local
storage untouched; `__call__` in context A only ever returns the
connection stored for A; and in the two-context scenario (both contexts
initially unbound, A acquires, then B acquires) each context's `__call__`
returns its own connection and the two connections differ. -/
theorem contexts_isolated (s : ProviderState) (ctxA ctxB : Ctx) (hAB : ctxA ≠ ctxB) :
    (∀ c s', open_ s ctxB = .ok (c, s') → s'.storage ctxA = s.storage ctxA)
    ∧ (∀ closeErr, ((close_if_present closeErr s ctxB).2).storage ctxA =
        s.storage ctxA)
    ∧ (∀ c, call s ctxA = .ok c → (s.storage ctxA).connection = some c)
    ∧ ((s.storage ctxA).connection = none → (s.storage ctxB).connection = none →
        ∀ cA sA cB sB, open_ s ctxA = .ok (cA, sA) → open_ sA ctxB = .ok (cB, sB) →
          call sB ctxA = .ok cA ∧ call sB ctxB = .ok cB ∧ cA ≠ cB) := by
  have hBA : ctxB ≠ ctxA := fun h => hAB h.symm
  refine ⟨?_, ?_, ?_, ?_⟩
  · intro c s' h
    cases hc : (s.storage ctxB).connection with
    | some c₀ => simp [open_, hc] at h
    | none =>
      simp [open_, hc] at h
      rw [← h.2]
      simp [hAB]
  · intro closeErr
    cases hc : (s.storage ctxB).connection with
    | none => simp [close_if_present, hc]
    | some c =>
      cases hce : closeErr c with
      | none => simp [close_if_present, hc, hce, hAB]
      | some e => cases e <;> simp [close_if_present, hc, hce]
  · intro c h
    cases hc : (s.storage ctxA).connection with
    | none => simp [call, hc] at h
    | some c₀ =>
      simp [call, hc] at h
      subst h
      rfl
  · intro hA hB cA sA cB sB h1 h2
    simp [open_, hA] at h1
    obtain ⟨h1a, h1b⟩ := h1
    subst h1a
    subst h1b
    simp [open_, hB, hBA] at h2
    obtain ⟨h2a, h2b⟩ := h2
    subst h2a
    subst h2b
    refine ⟨?_, ?_, ?_⟩
    · simp [call, hAB, hBA]
    · simp [call]
    · exact Nat.ne_of_lt (Nat.lt_succ_self _)

/-- Witness for C8: with contexts 0 and 1 on the freshly constructed state,
a release performed in context 1 leaves context 0's storage unchanged. -/
theorem contexts_isolated_witness :
    ((close_if_present (fun _ => none) emptyState 1).2).storage 0 =
      emptyState.storage 0 :=
  (contexts_isolated emptyState 0 1 (by decide)).2.1 (fun _ => none)

/-- C7: `register` never fails on a duplicate capability identifier — it
overwrites.  For any prior registry contents (hence for every sequence of
earlier registrations of the same identifier), after registering `e₂`
under `cid` the stored entry for `cid` is `e₂`, in particular after two
back-to-back registrations the second one wins, and a subsequent `resolve`
evaluates the last-registered entry. -/
theorem register_last_writer_wins (r : Registry) (cid : Capability)
    (e₁ e₂ : RegistryEntry) (s : ProviderState) (ctx : Ctx) :
    (r.register cid e₂).lookup cid = some e₂
    ∧ ((r.register cid e₁).register cid e₂).lookup cid = some e₂
    ∧ (r.register cid e₂).resolve cid s ctx = Registry.runEntry e₂ s ctx := by
  have hl : ∀ r' : Registry, (r'.register cid e₂).lookup cid = some e₂ := by
    intro r'
    simp [Registry.register, Registry.lookup]
  refine ⟨hl r, hl _, ?_⟩
  simp [Registry.resolve, hl r]

/-- The `Connection` capability of the configured registry is a
provider-kind entry holding the closure over the provider's `__call__`. -/
theorem di_config_lookup_Connection (login password : String) (r0 : Registry) :
    (di_config login password r0).lookup .Connection =
      some (.provider fun s ctx =>
        (ThreadlocalConnectionProvider.call s ctx).map DIValue.conn) := by
  simp [di_config, Registry.register, Registry.lookup]

/-- C6: resolving the provider-kind `Connection` entry invokes the stored
closure at resolution time, so it returns whatever connection is bound to
the current context at that moment (and fails when none is): two
sequential units of work on the same context resolving the same
capability obtain two different connections, not the value at
registration time. -/
theorem resolve_provider_reflects_current_binding (login password : String)
    (r0 : Registry) (s : ProviderState) (ctx : Ctx) :
    (∀ c, (s.storage ctx).connection = some c →
      (di_config login password r0).resolve .Connection s ctx = .ok (.conn c))
    ∧ ((s.storage ctx).connection = none →
      (di_config login password r0).resolve .Connection s ctx =
        .error .noActiveConnection)
    ∧ ((s.storage ctx).connection = none →
      (two_uow_resolves (di_config login password r0) s ctx).map
          (fun t => (t.1, t.2.1)) =
        .ok (.conn s.nextConn, .conn (s.nextConn + 1))
      ∧ s.nextConn ≠ s.nextConn + 1) := by
  refine ⟨?_, ?_, ?_⟩
  · intro c hc
    simp [Registry.resolve, di_config_lookup_Connection, Registry.runEntry, call,
      hc, Except.map]
  · intro hc
    simp [Registry.resolve, di_config_lookup_Connection, Registry.runEntry, call,
      hc, Except.map]
  · intro hc
    refine ⟨?_, by omega⟩
    simp [two_uow_resolves, open_, hc, Registry.resolve, di_config_lookup_Connection,
      Registry.runEntry, call, close_if_present, Storage.empty, Except.map]

/-- Witness for C6: resolving `Connection` on the freshly constructed
state (no binding anywhere) raises the no-active-connection error. -/
theorem resolve_provider_reflects_current_binding_witness :
    (di_config "login" "password" ⟨[]⟩).resolve .Connection emptyState 0 =
      .error .noActiveConnection :=
  (resolve_provider_reflects_current_binding "login" "password" ⟨[]⟩
    emptyState 0).2.1 rfl
